import Mathlib

set_option maxRecDepth 8000

/-!
Verification of the music-mcp tool dispatch and command-templating layer
(`src/index.ts`). The dispatcher receives a tool name and an argument
mapping, builds an AppleScript command, hands it to an external executor
(`execSync` running `osascript`), and converts the output or failure into
a textual result. Numeric arguments are modelled as integers; string
arguments are modelled as present (`some v`) or absent (`none`), matching
JavaScript destructuring with defaults.
-/

namespace MusicMcp

/-- Outcome of the external executor (`execSync`): captured stdout, or a
thrown error carrying a message and an optional stderr stream. -/
inductive ExecOutcome where
  | ok (stdout : String)
  | fail (message : String) (stderr : Option String)
deriving Repr, DecidableEq

/-- The external command executor: takes the full shell command string and
returns its outcome. -/
abbrev Executor := String → ExecOutcome

/-- JavaScript `stderr || message`: the stderr content when present and
non-empty, else the message (`err.stderr || err.message`). -/
def jsOr : Option String → String → String
  | some s, b => if s = "" then b else s
  | none, b => b

/-- `script.replace(/'/g, "'\"'\"'")` from `runAppleScript`, at character
level: each single quote becomes the five-character shell quote-splice. -/
def escSingleQuote : List Char → List Char
  | [] => []
  | c :: cs =>
    if c = '\'' then '\'' :: '"' :: '\'' :: '"' :: '\'' :: escSingleQuote cs
    else c :: escSingleQuote cs

/-- `.replace(/"/g, '\\"')`: each double quote becomes backslash-quote.
Used both as the per-script argument escape (`safeName`, `safeQuery`, ...)
and as the second stage of `runAppleScriptMulti`'s escaping. -/
def escQuote : List Char → List Char
  | [] => []
  | c :: cs =>
    if c = '"' then '\\' :: '"' :: escQuote cs
    else c :: escQuote cs

/-- `.replace(/\\/g, '\\\\')`: each backslash is doubled. First stage of
`runAppleScriptMulti`'s escaping. -/
def escBackslash : List Char → List Char
  | [] => []
  | c :: cs =>
    if c = '\\' then '\\' :: '\\' :: escBackslash cs
    else c :: escBackslash cs

/-- The per-script escape applied to every free-text argument before
interpolation: `value.replace(/"/g, '\\"')`. -/
def scriptEscape (s : String) : String := ⟨escQuote s.data⟩

/-- `runAppleScriptMulti`'s escaping of the whole script for embedding in
a double-quoted shell literal: backslashes doubled, then quotes escaped. -/
def escapeForDoubleQuote (s : String) : String := ⟨escQuote (escBackslash s.data)⟩

/-- `runAppleScript`'s escaping of the whole script for embedding in a
single-quoted shell literal. -/
def escapeForSingleQuote (s : String) : String := ⟨escSingleQuote s.data⟩

/-- The command string built by `runAppleScript`:
`osascript -e '<escaped script>'`. -/
def osascriptSingle (script : String) : String :=
  "osascript -e '" ++ escapeForSingleQuote script ++ "'"

/-- The command string built by `runAppleScriptMulti`:
`osascript -e "<escaped script>"`. -/
def osascriptMultiCmd (script : String) : String :=
  "osascript -e \"" ++ escapeForDoubleQuote script ++ "\""

/-- JavaScript `String.prototype.trim()` applied to the captured stdout:
drop whitespace from both ends, at character level. -/
def jsTrim (s : String) : String :=
  ⟨((s.data.dropWhile Char.isWhitespace).reverse.dropWhile Char.isWhitespace).reverse⟩

/-- `runAppleScript`: execute the single-statement command, trim stdout;
a thrown execution failure becomes
`AppleScript error: ${err.stderr || err.message}`. -/
def runAppleScript (exec : Executor) (script : String) : Except String String :=
  match exec (osascriptSingle script) with
  | .ok out => .ok (jsTrim out)
  | .fail msg st => .error ("AppleScript error: " ++ jsOr st msg)

/-- `runAppleScriptMulti`: like `runAppleScript` but with the
double-quoted embedding. -/
def runAppleScriptMulti (exec : Executor) (script : String) : Except String String :=
  match exec (osascriptMultiCmd script) with
  | .ok out => .ok (jsTrim out)
  | .fail msg st => .error ("AppleScript error: " ++ jsOr st msg)

/-! ## Script templates, transcribed from the `CallToolRequestSchema`
handler's case bodies. -/

def playScript : String := "tell application \"Music\" to play"

def pauseScript : String := "tell application \"Music\" to pause"

def stopScript : String := "tell application \"Music\" to stop"

def nextScript : String := "tell application \"Music\" to next track"

def previousScript : String := "tell application \"Music\" to previous track"

def playpauseScript : String := "tell application \"Music\" to playpause"

def playerStateScript : String := "tell application \"Music\" to return player state as string"

def getVolumeScript : String := "tell application \"Music\" to return sound volume"

def setVolumeScript (v : Int) : String :=
  "tell application \"Music\" to set sound volume to " ++ toString v

def getPositionScript : String := "tell application \"Music\" to return player position"

def setPositionScript (p : Int) : String :=
  "tell application \"Music\" to set player position to " ++ toString p

def getShuffleScript : String := "tell application \"Music\" to return shuffle enabled"

def setShuffleScript (b : Bool) : String :=
  "tell application \"Music\" to set shuffle enabled to " ++ toString b

def getRepeatScript : String := "tell application \"Music\" to return song repeat as string"

def setRepeatScript (v : String) : String :=
  "tell application \"Music\" to set song repeat to " ++ v

def activateScript : String := "tell application \"Music\" to activate"

def quitScript : String := "tell application \"Music\" to quit"

def currentTrackScript : String :=
  "\ntell application \"Music\"\n  if player state is not stopped then\n    set currentTrack to current track\n    set trackInfo to \"Name: \" & name of currentTrack & \"\\n\"\n    set trackInfo to trackInfo & \"Artist: \" & artist of currentTrack & \"\\n\"\n    set trackInfo to trackInfo & \"Album: \" & album of currentTrack & \"\\n\"\n    set trackInfo to trackInfo & \"Duration: \" & (duration of currentTrack) & \" seconds\\n\"\n    set trackInfo to trackInfo & \"Year: \" & year of currentTrack & \"\\n\"\n    set trackInfo to trackInfo & \"Genre: \" & genre of currentTrack\n    return trackInfo\n  else\n    return \"No track is currently playing\"\n  end if\nend tell"

def getPlaylistsScript : String :=
  "\ntell application \"Music\"\n  set playlistNames to \"\"\n  repeat with p in playlists\n    set playlistNames to playlistNames & name of p & \"\\n\"\n  end repeat\n  return playlistNames\nend tell"

def playlistTracksScript (safeName : String) (limit : Int) : String :=
  "\ntell application \"Music\"\n  try\n    set thePlaylist to playlist \"" ++ safeName
  ++ "\"\n    set trackList to \"\"\n    set trackCount to 0\n    repeat with t in tracks of thePlaylist\n      if trackCount < "
  ++ toString limit
  ++ " then\n        set trackList to trackList & name of t & \" - \" & artist of t & \"\\n\"\n        set trackCount to trackCount + 1\n      end if\n    end repeat\n    if trackList is \"\" then\n      return \"Playlist is empty\"\n    end if\n    return trackList\n  on error\n    return \"Playlist not found: "
  ++ safeName ++ "\"\n  end try\nend tell"

def playPlaylistScript (safeName : String) (shuffle : Bool) : String :=
  "\ntell application \"Music\"\n  try\n    set thePlaylist to playlist \"" ++ safeName
  ++ "\"\n    " ++ (if shuffle then "set shuffle enabled to true" else "")
  ++ "\n    play thePlaylist\n    return \"Playing playlist: " ++ safeName
  ++ "\"\n  on error\n    return \"Playlist not found: " ++ safeName
  ++ "\"\n  end try\nend tell"

def searchSongsScript (safeQuery : String) (limit : Int) : String :=
  "\ntell application \"Music\"\n  set results to \"\"\n  set matchCount to 0\n  repeat with t in (every track whose name contains \""
  ++ safeQuery ++ "\" or artist contains \"" ++ safeQuery ++ "\" or album contains \"" ++ safeQuery
  ++ "\")\n    if matchCount < " ++ toString limit
  ++ " then\n      set results to results & name of t & \" - \" & artist of t & \" (\" & album of t & \")\\n\"\n      set matchCount to matchCount + 1\n    end if\n  end repeat\n  if results is \"\" then\n    return \"No results found for: "
  ++ safeQuery ++ "\"\n  end if\n  return results\nend tell"

def searchAlbumsScript (safeQuery : String) (limit : Int) : String :=
  "\ntell application \"Music\"\n  set results to \"\"\n  set albumList to {}\n  set matchCount to 0\n  repeat with t in (every track whose album contains \""
  ++ safeQuery ++ "\")\n    if matchCount < " ++ toString limit
  ++ " then\n      set albumKey to album of t & \" - \" & album artist of t\n      if albumKey is not in albumList then\n        set end of albumList to albumKey\n        set results to results & album of t & \" - \" & album artist of t & \"\\n\"\n        set matchCount to matchCount + 1\n      end if\n    end if\n  end repeat\n  if results is \"\" then\n    return \"No albums found for: "
  ++ safeQuery ++ "\"\n  end if\n  return results\nend tell"

def searchArtistsScript (safeQuery : String) (limit : Int) : String :=
  "\ntell application \"Music\"\n  set results to \"\"\n  set artistList to {}\n  set matchCount to 0\n  repeat with t in (every track whose artist contains \""
  ++ safeQuery ++ "\")\n    if matchCount < " ++ toString limit
  ++ " then\n      set artistName to artist of t\n      if artistName is not in artistList then\n        set end of artistList to artistName\n        set results to results & artistName & \"\\n\"\n        set matchCount to matchCount + 1\n      end if\n    end if\n  end repeat\n  if results is \"\" then\n    return \"No artists found for: "
  ++ safeQuery ++ "\"\n  end if\n  return results\nend tell"

def playSongScript (safeSong : String) (safeArtist : Option String) : String :=
  "\ntell application \"Music\"\n  try\n    "
  ++ (match safeArtist with
      | some a =>
        "set matchingTracks to (every track whose name contains \"" ++ safeSong
        ++ "\" and artist contains \"" ++ a ++ "\")"
      | none =>
        "set matchingTracks to (every track whose name contains \"" ++ safeSong ++ "\")")
  ++ "\n    if (count of matchingTracks) > 0 then\n      play item 1 of matchingTracks\n      set t to item 1 of matchingTracks\n      return \"Playing: \" & name of t & \" - \" & artist of t\n    else\n      return \"Song not found: "
  ++ safeSong
  ++ "\"\n    end if\n  on error errMsg\n    return \"Error: \" & errMsg\n  end try\nend tell"

def playAlbumScript (safeAlbum : String) (safeArtist : Option String) : String :=
  "\ntell application \"Music\"\n  try\n    "
  ++ (match safeArtist with
      | some a =>
        "set albumTracks to (every track whose album is \"" ++ safeAlbum
        ++ "\" and album artist contains \"" ++ a ++ "\")"
      | none =>
        "set albumTracks to (every track whose album is \"" ++ safeAlbum ++ "\")")
  ++ "\n    if (count of albumTracks) > 0 then\n      play item 1 of albumTracks\n      return \"Playing album: "
  ++ safeAlbum ++ "\"\n    else\n      return \"Album not found: " ++ safeAlbum
  ++ "\"\n    end if\n  on error errMsg\n    return \"Error: \" & errMsg\n  end try\nend tell"

def playArtistScript (safeArtist : String) (shuffle : Bool) : String :=
  "\ntell application \"Music\"\n  try\n    set artistTracks to (every track whose artist contains \""
  ++ safeArtist
  ++ "\")\n    if (count of artistTracks) > 0 then\n      "
  ++ (if shuffle then "set shuffle enabled to true" else "")
  ++ "\n      play item 1 of artistTracks\n      return \"Playing songs by: " ++ safeArtist
  ++ "\"\n    else\n      return \"No songs found by: " ++ safeArtist
  ++ "\"\n    end if\n  on error errMsg\n    return \"Error: \" & errMsg\n  end try\nend tell"

def addToQueueScript (safeSong : String) (safeArtist : Option String) : String :=
  "\ntell application \"Music\"\n  try\n    "
  ++ (match safeArtist with
      | some a =>
        "set matchingTracks to (every track whose name contains \"" ++ safeSong
        ++ "\" and artist contains \"" ++ a ++ "\")"
      | none =>
        "set matchingTracks to (every track whose name contains \"" ++ safeSong ++ "\")")
  ++ "\n    if (count of matchingTracks) > 0 then\n      set t to item 1 of matchingTracks\n      return \"Found: \" & name of t & \" - \" & artist of t & \"\\nNote: Direct queue manipulation requires manual action in Music app\"\n    else\n      return \"Song not found: "
  ++ safeSong
  ++ "\"\n    end if\n  on error errMsg\n    return \"Error: \" & errMsg\n  end try\nend tell"

def loveTrackScript : String :=
  "\ntell application \"Music\"\n  if player state is not stopped then\n    set loved of current track to true\n    return \"Loved: \" & name of current track\n  else\n    return \"No track is playing\"\n  end if\nend tell"

def dislikeTrackScript : String :=
  "\ntell application \"Music\"\n  if player state is not stopped then\n    set disliked of current track to true\n    return \"Disliked: \" & name of current track\n  else\n    return \"No track is playing\"\n  end if\nend tell"

/-! ## The request handlers. -/

/-- The tool names advertised by the `ListToolsRequestSchema` handler, in
source order. -/
def listToolNames : List String :=
  ["music_play", "music_pause", "music_stop", "music_next", "music_previous",
   "music_toggle_playback", "music_get_current_track", "music_get_player_state",
   "music_get_volume", "music_set_volume", "music_get_position", "music_set_position",
   "music_get_shuffle", "music_set_shuffle", "music_get_repeat", "music_set_repeat",
   "music_get_playlists", "music_get_playlist_tracks", "music_play_playlist",
   "music_search_library", "music_play_song", "music_play_album", "music_play_artist",
   "music_add_to_queue", "music_love_track", "music_dislike_track", "music_open",
   "music_quit"]

/-- The argument mapping of an invocation request. A field is `none` when
the argument is absent (JavaScript `undefined`). -/
structure Args where
  volume : Option Int := none
  position : Option Int := none
  enabled : Option Bool := none
  mode : Option String := none
  playlist : Option String := none
  limit : Option Int := none
  shuffle : Option Bool := none
  query : Option String := none
  searchType : Option String := none
  song : Option String := none
  album : Option String := none
  artist : Option String := none
deriving Repr, DecidableEq

/-- The caller-facing result: text body and error flag (`isError` absent
in the source result object is modelled as `false`). -/
structure ToolResult where
  text : String
  isError : Bool
deriving Repr, DecidableEq

/-- A dispatch outcome together with the list of external commands the
branch handed to the executor (instrumentation for the embedding). -/
structure DispatchOut where
  result : ToolResult
  commands : List String
deriving Repr, DecidableEq

/-- `Math.max(0, Math.min(100, volume))` from the `music_set_volume` case. -/
def clampVolume (v : Int) : Int := max 0 (min 100 v)

/-- The ternary from the `music_set_repeat` case:
`mode === 'off' ? 'off' : mode === 'one' ? 'one' : 'all'`. -/
def repeatValue (mode : String) : String :=
  if mode = "off" then "off" else if mode = "one" then "one" else "all"

/-- `artist ? artist.replace(/"/g, '\\"') : null`: JavaScript truthiness,
so an absent or empty artist yields `none`. -/
def optionalSafeArtist : Option String → Option String
  | some a => if a = "" then none else some (scriptEscape a)
  | none => none

/-- A dispatcher case that runs a single-statement script: the executor
outcome mapped through the case's result builder, plus the issued command. -/
def runSingleCase (exec : Executor) (script : String) (f : String → ToolResult) :
    Except String ToolResult × List String :=
  ((runAppleScript exec script).map f, [osascriptSingle script])

/-- A dispatcher case that runs a multi-line script. -/
def runMultiCase (exec : Executor) (script : String) (f : String → ToolResult) :
    Except String ToolResult × List String :=
  ((runAppleScriptMulti exec script).map f, [osascriptMultiCmd script])

/-- The `music_search_library` case: destructuring defaults
(`searchType = 'all'`, `limit = 20`), then one of three query shapes, or
the invalid-search-type error result with no command executed. -/
def searchLibraryCase (exec : Executor) (args : Args) :
    Except String ToolResult × List String :=
  let query := (args.query).getD ""
  let searchType := (args.searchType).getD "all"
  let limit := (args.limit).getD 20
  let safeQuery := scriptEscape query
  if searchType = "songs" ∨ searchType = "all" then
    runMultiCase exec (searchSongsScript safeQuery limit) fun out => ⟨out, false⟩
  else if searchType = "albums" then
    runMultiCase exec (searchAlbumsScript safeQuery limit) fun out => ⟨out, false⟩
  else if searchType = "artists" then
    runMultiCase exec (searchArtistsScript safeQuery limit) fun out => ⟨out, false⟩
  else
    (Except.ok ⟨"Invalid search type", true⟩, [])

/-- The body of the `CallToolRequestSchema` handler's `switch`, before the
surrounding try/catch: either a result or a propagating failure, together
with the commands handed to the executor. -/
def handleInner (exec : Executor) (name : String) (args : Args) :
    Except String ToolResult × List String :=
  if name = "music_play" then
    runSingleCase exec playScript fun _ => ⟨"Playback started", false⟩
  else if name = "music_pause" then
    runSingleCase exec pauseScript fun _ => ⟨"Playback paused", false⟩
  else if name = "music_stop" then
    runSingleCase exec stopScript fun _ => ⟨"Playback stopped", false⟩
  else if name = "music_next" then
    runSingleCase exec nextScript fun _ => ⟨"Skipped to next track", false⟩
  else if name = "music_previous" then
    runSingleCase exec previousScript fun _ => ⟨"Went to previous track", false⟩
  else if name = "music_toggle_playback" then
    runSingleCase exec playpauseScript fun _ => ⟨"Toggled playback", false⟩
  else if name = "music_get_current_track" then
    runMultiCase exec currentTrackScript fun out => ⟨out, false⟩
  else if name = "music_get_player_state" then
    runSingleCase exec playerStateScript fun out => ⟨"Player state: " ++ out, false⟩
  else if name = "music_get_volume" then
    runSingleCase exec getVolumeScript fun out => ⟨"Volume: " ++ out ++ "%", false⟩
  else if name = "music_set_volume" then
    let volume := clampVolume ((args.volume).getD 0)
    runSingleCase exec (setVolumeScript volume) fun _ =>
      ⟨"Volume set to " ++ toString volume ++ "%", false⟩
  else if name = "music_get_position" then
    runSingleCase exec getPositionScript fun out => ⟨"Position: " ++ out ++ " seconds", false⟩
  else if name = "music_set_position" then
    let position := (args.position).getD 0
    runSingleCase exec (setPositionScript position) fun _ =>
      ⟨"Position set to " ++ toString position ++ " seconds", false⟩
  else if name = "music_get_shuffle" then
    runSingleCase exec getShuffleScript fun out =>
      ⟨"Shuffle: " ++ (if out = "true" then "on" else "off"), false⟩
  else if name = "music_set_shuffle" then
    let enabled := (args.enabled).getD false
    runSingleCase exec (setShuffleScript enabled) fun _ =>
      ⟨"Shuffle " ++ (if enabled then "enabled" else "disabled"), false⟩
  else if name = "music_get_repeat" then
    runSingleCase exec getRepeatScript fun out => ⟨"Repeat mode: " ++ out, false⟩
  else if name = "music_set_repeat" then
    let mode := (args.mode).getD ""
    runSingleCase exec (setRepeatScript (repeatValue mode)) fun _ =>
      ⟨"Repeat mode set to " ++ mode, false⟩
  else if name = "music_get_playlists" then
    runMultiCase exec getPlaylistsScript fun out => ⟨"Playlists:\n" ++ out, false⟩
  else if name = "music_get_playlist_tracks" then
    let playlist := (args.playlist).getD ""
    let limit := (args.limit).getD 50
    runMultiCase exec (playlistTracksScript (scriptEscape playlist) limit) fun out =>
      ⟨out, false⟩
  else if name = "music_play_playlist" then
    let playlist := (args.playlist).getD ""
    let shuffle := (args.shuffle).getD false
    runMultiCase exec (playPlaylistScript (scriptEscape playlist) shuffle) fun out =>
      ⟨out, false⟩
  else if name = "music_search_library" then
    searchLibraryCase exec args
  else if name = "music_play_song" then
    let song := (args.song).getD ""
    runMultiCase exec (playSongScript (scriptEscape song) (optionalSafeArtist args.artist))
      fun out => ⟨out, false⟩
  else if name = "music_play_album" then
    let album := (args.album).getD ""
    runMultiCase exec (playAlbumScript (scriptEscape album) (optionalSafeArtist args.artist))
      fun out => ⟨out, false⟩
  else if name = "music_play_artist" then
    let artist := (args.artist).getD ""
    let shuffle := (args.shuffle).getD true
    runMultiCase exec (playArtistScript (scriptEscape artist) shuffle) fun out => ⟨out, false⟩
  else if name = "music_add_to_queue" then
    let song := (args.song).getD ""
    runMultiCase exec (addToQueueScript (scriptEscape song) (optionalSafeArtist args.artist))
      fun out => ⟨out, false⟩
  else if name = "music_love_track" then
    runMultiCase exec loveTrackScript fun out => ⟨out, false⟩
  else if name = "music_dislike_track" then
    runMultiCase exec dislikeTrackScript fun out => ⟨out, false⟩
  else if name = "music_open" then
    runSingleCase exec activateScript fun _ => ⟨"Music app opened", false⟩
  else if name = "music_quit" then
    runSingleCase exec quitScript fun _ => ⟨"Music app closed", false⟩
  else
    (Except.ok ⟨"Unknown tool: " ++ name, true⟩, [])

/-- The handler's outermost catch: a propagating failure becomes a result
with `isError = true` and text `Error: <message>`. -/
def catchWrap : Except String ToolResult → ToolResult
  | .ok r => r
  | .error m => ⟨"Error: " ++ m, true⟩

/-- The full `CallToolRequestSchema` handler: dispatch, with every failure
caught at the outermost boundary. -/
def handleCallTool (exec : Executor) (name : String) (args : Args) : DispatchOut :=
  ⟨catchWrap (handleInner exec name args).1, (handleInner exec name args).2⟩

/-! ## Semantics of the generated library scripts.

The search and playlist scripts are themselves source code of this
repository (generated AppleScript); the following functions translate
their loop bodies over an abstract library, so that the cap, dedup and
empty-result behaviour of the generated queries can be stated. -/

/-- A library track as read by the generated scripts. -/
structure Track where
  name : String
  artist : String
  album : String
  albumArtist : String
deriving Repr, DecidableEq

/-- Semantics of the `music_get_playlists` script: starting from the
empty string, append each playlist name followed by a newline. -/
def playlistsScriptOutput (names : List String) : String :=
  names.foldl (fun acc n => acc ++ n ++ "\n") ""

/-- The line emitted per track by the playlist-tracks script:
`name of t & " - " & artist of t & "\n"`. -/
def trackEntry (t : Track) : String := t.name ++ " - " ++ t.artist ++ "\n"

/-- Loop of the playlist-tracks script: append a `trackEntry` while
`trackCount < limit`. -/
def tracksLoop (limit : Int) : List Track → Int → String
  | [], _ => ""
  | t :: ts, c =>
    if c < limit then trackEntry t ++ tracksLoop limit ts (c + 1)
    else tracksLoop limit ts c

/-- Semantics of the playlist-tracks script: the `on error` branch yields
the not-found message; otherwise the capped listing, or `Playlist is
empty` when the listing came out empty. -/
def playlistTracksScriptOutput (found : Option (List Track)) (safeName : String)
    (limit : Int) : String :=
  match found with
  | none => "Playlist not found: " ++ safeName
  | some ts =>
    let trackList := tracksLoop limit ts 0
    if trackList = "" then "Playlist is empty" else trackList

/-- The line emitted per match by the songs/all search script:
`name of t & " - " & artist of t & " (" & album of t & ")\n"`. -/
def songEntry (t : Track) : String :=
  t.name ++ " - " ++ t.artist ++ " (" ++ t.album ++ ")\n"

/-- Loop of the songs/all search script: append a `songEntry` while
`matchCount < limit`, no dedup. -/
def songsLoop (limit : Int) : List Track → Int → String
  | [], _ => ""
  | t :: ts, c =>
    if c < limit then songEntry t ++ songsLoop limit ts (c + 1)
    else songsLoop limit ts c

/-- Semantics of the songs/all search script over its matched tracks. -/
def songsSearchOutput (safeQuery : String) (limit : Int) (found : List Track) : String :=
  let results := songsLoop limit found 0
  if results = "" then "No results found for: " ++ safeQuery else results

/-- The album-search dedup key:
`album of t & " - " & album artist of t`. -/
def albumKey (t : Track) : String := t.album ++ " - " ++ t.albumArtist

/-- Loop of the albums search script: while `matchCount < limit`, skip a
track whose `albumKey` is already in `albumList`, else record the key and
emit it followed by a newline. -/
def albumsLoop (limit : Int) : List Track → List String → Int → String
  | [], _, _ => ""
  | t :: ts, seen, c =>
    if c < limit then
      if albumKey t ∈ seen then albumsLoop limit ts seen c
      else (albumKey t ++ "\n") ++ albumsLoop limit ts (seen ++ [albumKey t]) (c + 1)
    else albumsLoop limit ts seen c

/-- Semantics of the albums search script over its matched tracks. -/
def albumsSearchOutput (safeQuery : String) (limit : Int) (found : List Track) : String :=
  let results := albumsLoop limit found [] 0
  if results = "" then "No albums found for: " ++ safeQuery else results

/-- Loop of the artists search script: dedup by artist name, cap at
`limit`, emit each new artist name followed by a newline. -/
def artistsLoop (limit : Int) : List Track → List String → Int → String
  | [], _, _ => ""
  | t :: ts, seen, c =>
    if c < limit then
      if t.artist ∈ seen then artistsLoop limit ts seen c
      else (t.artist ++ "\n") ++ artistsLoop limit ts (seen ++ [t.artist]) (c + 1)
    else artistsLoop limit ts seen c

/-- Semantics of the artists search script over its matched tracks. -/
def artistsSearchOutput (safeQuery : String) (limit : Int) (found : List Track) : String :=
  let results := artistsLoop limit found [] 0
  if results = "" then "No artists found for: " ++ safeQuery else results

/-- Concatenation of emitted entries, in iteration order. -/
def renderCat : List String → String
  | [] => ""
  | s :: ss => s ++ renderCat ss

/-- An emitted dedup line: the key followed by a newline. -/
def lineEntry (s : String) : String := s ++ "\n"

/-- The keys a dedup-and-cap loop emits, in order: skip a key already in
`seen`, else emit it, remember it, and count it against the cap. -/
def dedupSelect (key : Track → String) (limit : Int) :
    List Track → List String → Int → List String
  | [], _, _ => []
  | t :: ts, seen, c =>
    if c < limit then
      if key t ∈ seen then dedupSelect key limit ts seen c
      else key t :: dedupSelect key limit ts (seen ++ [key t]) (c + 1)
    else dedupSelect key limit ts seen c

/-- Scan of a double-quote-delimited shell literal body, counting the
double quotes not consumed by a preceding escaping backslash. A count of
zero means the body never terminates the literal early. -/
def unescapedQuotes : List Char → Nat
  | [] => 0
  | ['\\'] => 0
  | '\\' :: _ :: cs => unescapedQuotes cs
  | '"' :: cs => unescapedQuotes cs + 1
  | _ :: cs => unescapedQuotes cs

/-- An executor whose every command succeeds with empty output. -/
def okExec : Executor := fun _ => ExecOutcome.ok ""

/-- An executor whose every command fails with message `boom` and no
stderr stream. -/
def failExec : Executor := fun _ => ExecOutcome.fail "boom" none

/-- An executor modelling a library with no playlists: every command
returns what the get-playlists script computes over an empty library. -/
def emptyLibraryExec : Executor := fun _ => ExecOutcome.ok (playlistsScriptOutput [])

/-! ## Lemmas about the script semantics. -/

/-- The songs loop renders exactly the first `(limit - c).toNat` matches. -/
theorem songsLoop_take (limit : Int) (ts : List Track) :
    ∀ c : Int, songsLoop limit ts c
      = renderCat ((ts.take ((limit - c).toNat)).map songEntry) := by
  induction ts with
  | nil => intro c; simp [songsLoop, renderCat]
  | cons t ts ih =>
    intro c
    by_cases hc : c < limit
    · have htake : (limit - c).toNat = (limit - (c + 1)).toNat + 1 := by omega
      simp [songsLoop, hc, htake, renderCat, ih]
    · have htake : (limit - c).toNat = 0 := by omega
      simp [songsLoop, hc, htake, renderCat, ih c]

/-- The albums loop renders exactly the lines of its `dedupSelect` keys. -/
theorem albumsLoop_eq_select (limit : Int) (ts : List Track) :
    ∀ (seen : List String) (c : Int), albumsLoop limit ts seen c
      = renderCat ((dedupSelect albumKey limit ts seen c).map lineEntry) := by
  induction ts with
  | nil => intro seen c; simp [albumsLoop, dedupSelect, renderCat]
  | cons t ts ih =>
    intro seen c
    by_cases hc : c < limit
    · by_cases hk : albumKey t ∈ seen
      · simp [albumsLoop, dedupSelect, hc, hk, ih]
      · simp [albumsLoop, dedupSelect, hc, hk, renderCat, lineEntry, ih]
    · simp [albumsLoop, dedupSelect, hc, ih]

/-- The artists loop renders exactly the lines of its `dedupSelect` keys. -/
theorem artistsLoop_eq_select (limit : Int) (ts : List Track) :
    ∀ (seen : List String) (c : Int), artistsLoop limit ts seen c
      = renderCat ((dedupSelect Track.artist limit ts seen c).map lineEntry) := by
  induction ts with
  | nil => intro seen c; simp [artistsLoop, dedupSelect, renderCat]
  | cons t ts ih =>
    intro seen c
    by_cases hc : c < limit
    · by_cases hk : t.artist ∈ seen
      · simp [artistsLoop, dedupSelect, hc, hk, ih]
      · simp [artistsLoop, dedupSelect, hc, hk, renderCat, lineEntry, ih]
    · simp [artistsLoop, dedupSelect, hc, ih]

/-- The emitted keys of a dedup loop are pairwise distinct, and none of
them was already in `seen`. -/
theorem dedupSelect_nodup (key : Track → String) (limit : Int) (ts : List Track) :
    ∀ (seen : List String) (c : Int), (dedupSelect key limit ts seen c).Nodup ∧
      ∀ k ∈ dedupSelect key limit ts seen c, k ∉ seen := by
  induction ts with
  | nil => intro seen c; simp [dedupSelect]
  | cons t ts ih =>
    intro seen c
    by_cases hc : c < limit
    · by_cases hk : key t ∈ seen
      · simpa [dedupSelect, hc, hk] using ih seen c
      · have ihs := ih (seen ++ [key t]) (c + 1)
        constructor
        · simp only [dedupSelect, if_pos hc, if_neg hk]
          refine List.nodup_cons.mpr ⟨?_, ihs.1⟩
          intro hmem
          exact (ihs.2 _ hmem) (by simp)
        · intro k hmem
          simp only [dedupSelect, if_pos hc, if_neg hk, List.mem_cons] at hmem
          rcases hmem with rfl | hmem
          · exact hk
          · intro hks
            exact (ihs.2 _ hmem) (by simp [hks])
    · simpa [dedupSelect, hc] using ih seen c

/-- A dedup loop emits at most `(limit - c).toNat` keys. -/
theorem dedupSelect_length (key : Track → String) (limit : Int) (ts : List Track) :
    ∀ (seen : List String) (c : Int),
      (dedupSelect key limit ts seen c).length ≤ (limit - c).toNat := by
  induction ts with
  | nil => intro seen c; simp [dedupSelect]
  | cons t ts ih =>
    intro seen c
    by_cases hc : c < limit
    · by_cases hk : key t ∈ seen
      · simpa [dedupSelect, hc, hk] using ih seen c
      · have ihs := ih (seen ++ [key t]) (c + 1)
        simp only [dedupSelect, if_pos hc, if_neg hk, List.length_cons]
        omega
    · simpa [dedupSelect, hc] using ih seen c

/-! ## Properties of the escaping pipeline. -/

/-- Scanning past a character that is neither a backslash nor a double
quote leaves the unescaped-quote count unchanged. -/
theorem unescapedQuotes_cons_other {c : Char} (hb : ¬c = '\\') (hq : ¬c = '"')
    (cs : List Char) : unescapedQuotes (c :: cs) = unescapedQuotes cs := by
  cases cs <;> simp [unescapedQuotes, hb, hq]

/-- After `runAppleScriptMulti`'s two-stage escaping (backslashes doubled,
then quotes escaped) no double quote of the script survives unescaped, so
the double-quoted shell literal in the generated command is never
terminated early, whatever the script contains. -/
theorem unescapedQuotes_escaped (l : List Char) :
    unescapedQuotes (escQuote (escBackslash l)) = 0 := by
  induction l with
  | nil => rfl
  | cons c cs ih =>
    by_cases hb : c = '\\'
    · subst hb
      simp only [escBackslash, if_pos rfl]
      simp only [escQuote, if_neg (by decide : ¬('\\' = '"'))]
      simpa only [unescapedQuotes] using ih
    · by_cases hq : c = '"'
      · subst hq
        simp only [escBackslash, if_neg (by decide : ¬('"' = '\\'))]
        simp only [escQuote, if_pos rfl]
        simpa only [unescapedQuotes] using ih
      · simp only [escBackslash, if_neg hb]
        simp only [escQuote, if_neg hq]
        rw [unescapedQuotes_cons_other hb hq]
        exact ih

/-- `escQuote` lengthens its input by one per double quote. -/
theorem escQuote_length (l : List Char) :
    (escQuote l).length = l.length + l.count '"' := by
  induction l with
  | nil => rfl
  | cons c cs ih =>
    by_cases hq : c = '"'
    · subst hq
      simp only [escQuote, if_pos rfl, List.length_cons, List.count_cons, ih]
      simp
      omega
    · simp [escQuote, hq, List.count_cons, ih, Ne.symm hq]
      omega

/-- An argument containing a double quote is changed by the per-script
escape: the raw value is never what gets interpolated. -/
theorem scriptEscape_ne_of_quote {s : String} (h : '"' ∈ s.data) :
    scriptEscape s ≠ s := by
  intro heq
  have hdata : escQuote s.data = s.data := congrArg String.data heq
  have hlen := congrArg List.length hdata
  rw [escQuote_length] at hlen
  have hpos : 0 < s.data.count '"' := List.count_pos_iff.mpr h
  omega

/-! ## Helper lemmas about the dispatch boundary. -/

/-- Texts produced by the outer catch never collide with the unknown-tool
text: they differ already at the first character. -/
theorem error_text_ne_unknown (m n : String) :
    "Error: " ++ m ≠ "Unknown tool: " ++ n := by
  intro h
  have h2 := congrArg (fun s : String => s.data.head?) h
  simp only [String.data_append] at h2
  simp at h2

/-- A dispatcher case of the shape `executor outcome mapped through a
non-error result builder` never yields the unknown-tool result, whatever
the executor does. -/
theorem catchWrap_map_ne_unknown (e : Except String String) (f : String → ToolResult)
    (hf : ∀ s, (f s).isError = false) (n : String) :
    catchWrap (e.map f) ≠ ⟨"Unknown tool: " ++ n, true⟩ := by
  cases e with
  | ok s =>
    simp only [Except.map, catchWrap]
    intro h
    have hb : (f s).isError = true := by rw [h]
    rw [hf s] at hb
    exact Bool.noConfusion hb
  | error m =>
    simp only [Except.map, catchWrap]
    intro h
    have ht : "Error: " ++ m = "Unknown tool: " ++ n := congrArg ToolResult.text h
    exact error_text_ne_unknown m n ht

/-- A name that is not one of the 28 registered tool names falls through
every case to the default branch. -/
theorem handleCallTool_not_listed (name : String) (h : name ∉ listToolNames)
    (exec : Executor) (args : Args) :
    handleCallTool exec name args = ⟨⟨"Unknown tool: " ++ name, true⟩, []⟩ := by
  simp only [listToolNames, List.mem_cons, List.not_mem_nil, or_false, not_or] at h
  obtain ⟨h1, h2, h3, h4, h5, h6, h7, h8, h9, h10, h11, h12, h13, h14,
    h15, h16, h17, h18, h19, h20, h21, h22, h23, h24, h25, h26, h27, h28⟩ := h
  simp only [handleCallTool, handleInner, if_neg h1, if_neg h2, if_neg h3, if_neg h4,
    if_neg h5, if_neg h6, if_neg h7, if_neg h8, if_neg h9, if_neg h10, if_neg h11,
    if_neg h12, if_neg h13, if_neg h14, if_neg h15, if_neg h16, if_neg h17, if_neg h18,
    if_neg h19, if_neg h20, if_neg h21, if_neg h22, if_neg h23, if_neg h24, if_neg h25,
    if_neg h26, if_neg h27, if_neg h28, catchWrap]

/-- The `music_search_library` case never yields the unknown-tool result:
each of its four arms produces either a mapped executor outcome or the
invalid-search-type result. -/
theorem search_result_ne_unknown (exec : Executor) (args : Args) (n : String) :
    (handleCallTool exec "music_search_library" args).result
      ≠ ⟨"Unknown tool: " ++ n, true⟩ := by
  show catchWrap (searchLibraryCase exec args).1 ≠ _
  simp only [searchLibraryCase]
  split
  · exact catchWrap_map_ne_unknown _ _ (fun _ => rfl) _
  · split
    · exact catchWrap_map_ne_unknown _ _ (fun _ => rfl) _
    · split
      · exact catchWrap_map_ne_unknown _ _ (fun _ => rfl) _
      · intro hcontra
        have ht : "Invalid search type" = "Unknown tool: " ++ n :=
          congrArg ToolResult.text hcontra
        have h2 := congrArg (fun s : String => s.data.head?) ht
        simp only [String.data_append] at h2
        simp at h2

/-! ## The claims. -/

/-- C1: every free-text argument (playlist, song, album, artist, search
query) is passed through the per-script escape `scriptEscape` before
interpolation, the command handed to the executor is the double-quoted
`osascript` embedding of that script, and after the two-stage escaping no
double quote survives unescaped in the command's quoted body — an
argument containing a double quote is never embedded bare. -/
theorem free_text_quotes_escaped (s : String) (hq : '"' ∈ s.data) :
    scriptEscape s ≠ s ∧
    (∀ l : List Char, unescapedQuotes (escQuote (escBackslash l)) = 0) ∧
    (∀ script : String, unescapedQuotes (escapeForDoubleQuote script).data = 0) ∧
    (∀ (exec : Executor) (b : Bool),
      (handleCallTool exec "music_play_playlist"
          { playlist := some s, shuffle := some b }).commands
        = [osascriptMultiCmd (playPlaylistScript (scriptEscape s) b)]) ∧
    (∀ (exec : Executor) (l : Int),
      (handleCallTool exec "music_get_playlist_tracks"
          { playlist := some s, limit := some l }).commands
        = [osascriptMultiCmd (playlistTracksScript (scriptEscape s) l)]) ∧
    (∀ (exec : Executor) (l : Int),
      (handleCallTool exec "music_search_library"
          { query := some s, limit := some l }).commands
        = [osascriptMultiCmd (searchSongsScript (scriptEscape s) l)]) ∧
    (∀ exec : Executor,
      (handleCallTool exec "music_play_song" { song := some s, artist := some s }).commands
        = [osascriptMultiCmd (playSongScript (scriptEscape s) (some (scriptEscape s)))]) ∧
    (∀ exec : Executor,
      (handleCallTool exec "music_play_album" { album := some s }).commands
        = [osascriptMultiCmd (playAlbumScript (scriptEscape s) none)]) ∧
    (∀ (exec : Executor) (b : Bool),
      (handleCallTool exec "music_play_artist" { artist := some s, shuffle := some b }).commands
        = [osascriptMultiCmd (playArtistScript (scriptEscape s) b)]) ∧
    (∀ exec : Executor,
      (handleCallTool exec "music_add_to_queue" { song := some s }).commands
        = [osascriptMultiCmd (addToQueueScript (scriptEscape s) none)]) := by
  have hne : s ≠ "" := by
    intro h
    subst h
    simp at hq
  refine ⟨scriptEscape_ne_of_quote hq, unescapedQuotes_escaped,
    fun script => unescapedQuotes_escaped script.data,
    fun exec b => rfl, fun exec l => rfl, fun exec l => rfl, ?_,
    fun exec => rfl, fun exec b => rfl, fun exec => rfl⟩
  intro exec
  show [osascriptMultiCmd (playSongScript (scriptEscape s) (optionalSafeArtist (some s)))] = _
  rw [show optionalSafeArtist (some s) = some (scriptEscape s) by
    simp [optionalSafeArtist, hne]]

/-- C1 witness: the playlist name `Test "Playlist"` from the repository's
own regression test. -/
theorem free_text_quotes_escaped_witness :
    scriptEscape "Test \"Playlist\"" ≠ "Test \"Playlist\"" ∧
    (handleCallTool okExec "music_play_playlist"
        { playlist := some "Test \"Playlist\"", shuffle := some false }).commands
      = [osascriptMultiCmd (playPlaylistScript (scriptEscape "Test \"Playlist\"") false)] := by
  have h := free_text_quotes_escaped "Test \"Playlist\"" (by decide)
  exact ⟨h.1, h.2.2.2.1 okExec false⟩

/-- C2: the call-tool handler never propagates a failure: whatever the
executor, tool name and arguments, a failure of the dispatch body is
caught at the outermost boundary and becomes `isError = true` with text
`Error: ` followed by the failure's own message; and the only failures the
body produces are the AppleScript runners' `AppleScript error:` messages
built from the execution fault's own stderr-or-message. -/
theorem dispatcher_never_raises (exec : Executor) (name : String) (args : Args) :
    (∀ m, (handleInner exec name args).1 = Except.error m →
      (handleCallTool exec name args).result = ⟨"Error: " ++ m, true⟩) ∧
    (∀ script m st, exec (osascriptSingle script) = ExecOutcome.fail m st →
      runAppleScript exec script = Except.error ("AppleScript error: " ++ jsOr st m)) ∧
    (∀ script m st, exec (osascriptMultiCmd script) = ExecOutcome.fail m st →
      runAppleScriptMulti exec script = Except.error ("AppleScript error: " ++ jsOr st m)) := by
  refine ⟨?_, ?_, ?_⟩
  · intro m hm
    show catchWrap (handleInner exec name args).1 = _
    rw [hm]
    rfl
  · intro script m st hf
    simp only [runAppleScript, hf]
  · intro script m st hf
    simp only [runAppleScriptMulti, hf]

/-- C2 witness: a failing executor on `music_play` yields the wrapped
error result. -/
theorem dispatcher_never_raises_witness :
    (handleCallTool failExec "music_play" {}).result
      = ⟨"Error: " ++ "AppleScript error: boom", true⟩ :=
  (dispatcher_never_raises failExec "music_play" {}).1 "AppleScript error: boom" rfl

/-- C3 counterexample: `music_set_repeat` with the out-of-enumeration mode
`invalid` does not return an error result and does execute an external
command — the mode is normalized to `all` and the result is a success
message echoing the input, contradicting the claim that such values are
rejected with an error and no command. -/
theorem setRepeat_invalid_not_rejected :
    (handleCallTool okExec "music_set_repeat" { mode := some "invalid" }).result
      = ⟨"Repeat mode set to invalid", false⟩ ∧
    (handleCallTool okExec "music_set_repeat" { mode := some "invalid" }).commands
      = [osascriptSingle (setRepeatScript "all")] :=
  ⟨rfl, rfl⟩

/-- C3 (amended): for a mode outside the declared enumeration,
`music_set_repeat` does not forward the value verbatim: the token is
normalized to `all` before interpolation, exactly one external command
carrying `all` is executed, and the result is a non-error success message
echoing the original mode. -/
theorem setRepeat_out_of_enum_normalized (mode : String)
    (h1 : mode ≠ "off") (h2 : mode ≠ "one") (exec : Executor) :
    (handleCallTool exec "music_set_repeat" { mode := some mode }).commands
      = [osascriptSingle (setRepeatScript "all")] ∧
    (∀ out, exec (osascriptSingle (setRepeatScript "all")) = ExecOutcome.ok out →
      (handleCallTool exec "music_set_repeat" { mode := some mode }).result
        = ⟨"Repeat mode set to " ++ mode, false⟩) := by
  have hrv : repeatValue mode = "all" := by simp [repeatValue, h1, h2]
  constructor
  · show [osascriptSingle (setRepeatScript (repeatValue mode))] = _
    rw [hrv]
  · intro out hout
    show catchWrap ((runAppleScript exec (setRepeatScript (repeatValue mode))).map
        (fun _ => (⟨"Repeat mode set to " ++ mode, false⟩ : ToolResult))) = _
    rw [hrv]
    simp only [runAppleScript, hout, Except.map, catchWrap]

/-- C3 amended-claim witness at mode `invalid`. -/
theorem setRepeat_out_of_enum_normalized_witness :
    (handleCallTool okExec "music_set_repeat" { mode := some "invalid" }).commands
      = [osascriptSingle (setRepeatScript "all")] ∧
    (handleCallTool okExec "music_set_repeat" { mode := some "invalid" }).result
      = ⟨"Repeat mode set to " ++ "invalid", false⟩ := by
  have h := setRepeat_out_of_enum_normalized "invalid" (by decide) (by decide) okExec
  exact ⟨h.1, h.2 "" rfl⟩

/-- C4: `music_set_volume` clamps the numeric input to `[0, 100]` via
`max 0 (min 100 v)`, sends exactly the set-volume command carrying the
clamped value, and returns the non-error text `Volume set to <clamped>%`;
in particular the clamp maps `-10` to `0` and `150` to `100` — out of
range values are corrected, not rejected. -/
theorem setVolume_clamps (v : Int) (exec : Executor) (out : String)
    (hok : exec (osascriptSingle (setVolumeScript (clampVolume v))) = ExecOutcome.ok out) :
    clampVolume v = max 0 (min 100 v) ∧
    handleCallTool exec "music_set_volume" { volume := some v }
      = ⟨⟨"Volume set to " ++ toString (clampVolume v) ++ "%", false⟩,
         [osascriptSingle (setVolumeScript (clampVolume v))]⟩ ∧
    clampVolume (-10) = 0 ∧ clampVolume 150 = 100 := by
  refine ⟨rfl, ?_, by decide, by decide⟩
  show (⟨catchWrap ((runAppleScript exec (setVolumeScript (clampVolume v))).map
      (fun _ => (⟨"Volume set to " ++ toString (clampVolume v) ++ "%", false⟩ : ToolResult))),
      [osascriptSingle (setVolumeScript (clampVolume v))]⟩ : DispatchOut) = _
  simp only [runAppleScript, hok, Except.map, catchWrap]

/-- C4 witness: volume `-10` yields `Volume set to 0%`. -/
theorem setVolume_clamps_witness :
    handleCallTool okExec "music_set_volume" { volume := some (-10) }
      = ⟨⟨"Volume set to 0%", false⟩, [osascriptSingle (setVolumeScript 0)]⟩ := by
  have h := setVolume_clamps (-10) okExec "" rfl
  exact h.2.1

/-- C5: a tool name outside the fixed registry of 28 names yields
`isError = true` with text exactly `Unknown tool: <name>`, and no external
command is executed, for every executor and argument mapping. -/
theorem unknown_tool_rejected (name : String) (h : name ∉ listToolNames)
    (exec : Executor) (args : Args) :
    handleCallTool exec name args = ⟨⟨"Unknown tool: " ++ name, true⟩, []⟩ ∧
    listToolNames.length = 28 :=
  ⟨handleCallTool_not_listed name h exec args, by decide⟩

/-- C5 witness at the unregistered name `unknown_tool` from the
repository's own test. -/
theorem unknown_tool_rejected_witness :
    handleCallTool okExec "unknown_tool" {}
      = ⟨⟨"Unknown tool: " ++ "unknown_tool", true⟩, []⟩ :=
  (unknown_tool_rejected "unknown_tool" (by decide) okExec {}).1

/-- C6: `music_search_library` rejects a search type outside
`songs / albums / artists / all` with `isError = true`, text
`Invalid search type`, and no external command; each accepted type selects
its own query shape (songs and all share one, albums and artists each get
a dedup shape), pairwise distinct, with the requested limit capping the
emitted matches and the dedup shapes emitting pairwise-distinct keys. -/
theorem search_validates_scope (st q : String) (l : Int)
    (h1 : st ≠ "songs") (h2 : st ≠ "albums") (h3 : st ≠ "artists") (h4 : st ≠ "all") :
    (∀ exec : Executor,
      handleCallTool exec "music_search_library"
          { query := some q, searchType := some st, limit := some l }
        = ⟨⟨"Invalid search type", true⟩, []⟩) ∧
    (∀ exec : Executor,
      (handleCallTool exec "music_search_library"
          { query := some q, searchType := some "songs", limit := some l }).commands
        = [osascriptMultiCmd (searchSongsScript (scriptEscape q) l)]) ∧
    (∀ exec : Executor,
      (handleCallTool exec "music_search_library"
          { query := some q, searchType := some "all", limit := some l }).commands
        = [osascriptMultiCmd (searchSongsScript (scriptEscape q) l)]) ∧
    (∀ exec : Executor,
      (handleCallTool exec "music_search_library"
          { query := some q, searchType := some "albums", limit := some l }).commands
        = [osascriptMultiCmd (searchAlbumsScript (scriptEscape q) l)]) ∧
    (∀ exec : Executor,
      (handleCallTool exec "music_search_library"
          { query := some q, searchType := some "artists", limit := some l }).commands
        = [osascriptMultiCmd (searchArtistsScript (scriptEscape q) l)]) ∧
    (searchSongsScript (scriptEscape "Test") 20 ≠ searchAlbumsScript (scriptEscape "Test") 20
      ∧ searchSongsScript (scriptEscape "Test") 20 ≠ searchArtistsScript (scriptEscape "Test") 20
      ∧ searchAlbumsScript (scriptEscape "Test") 20
          ≠ searchArtistsScript (scriptEscape "Test") 20) ∧
    (∀ ts : List Track,
      songsLoop l ts 0 = renderCat ((ts.take l.toNat).map songEntry)
        ∧ ((ts.take l.toNat).map songEntry).length ≤ l.toNat) ∧
    (∀ ts : List Track,
      albumsLoop l ts [] 0 = renderCat ((dedupSelect albumKey l ts [] 0).map lineEntry)
        ∧ (dedupSelect albumKey l ts [] 0).Nodup
        ∧ (dedupSelect albumKey l ts [] 0).length ≤ l.toNat) ∧
    (∀ ts : List Track,
      artistsLoop l ts [] 0 = renderCat ((dedupSelect Track.artist l ts [] 0).map lineEntry)
        ∧ (dedupSelect Track.artist l ts [] 0).Nodup
        ∧ (dedupSelect Track.artist l ts [] 0).length ≤ l.toNat) := by
  refine ⟨?_, fun exec => rfl, fun exec => rfl, fun exec => rfl, fun exec => rfl,
    ⟨by decide, by decide, by decide⟩, ?_, ?_, ?_⟩
  · intro exec
    have hcase : searchLibraryCase exec
        { query := some q, searchType := some st, limit := some l }
        = (Except.ok ⟨"Invalid search type", true⟩, []) := by
      simp only [searchLibraryCase, Option.getD_some]
      rw [if_neg (by simp [h1, h4]), if_neg h2, if_neg h3]
    show (⟨catchWrap (searchLibraryCase exec
        { query := some q, searchType := some st, limit := some l }).1,
        (searchLibraryCase exec
        { query := some q, searchType := some st, limit := some l }).2⟩ : DispatchOut) = _
    rw [hcase]
    rfl
  · intro ts
    constructor
    · have h := songsLoop_take l ts 0
      rw [Int.sub_zero] at h
      exact h
    · simp only [List.length_map, List.length_take]
      omega
  · intro ts
    refine ⟨albumsLoop_eq_select l ts [] 0, (dedupSelect_nodup albumKey l ts [] 0).1, ?_⟩
    have h := dedupSelect_length albumKey l ts [] 0
    rw [Int.sub_zero] at h
    exact h
  · intro ts
    refine ⟨artistsLoop_eq_select l ts [] 0,
      (dedupSelect_nodup Track.artist l ts [] 0).1, ?_⟩
    have h := dedupSelect_length Track.artist l ts [] 0
    rw [Int.sub_zero] at h
    exact h

/-- C6 witness: query `Test`, search type `invalid` from the repository's
own test. -/
theorem search_validates_scope_witness :
    handleCallTool okExec "music_search_library"
        { query := some "Test", searchType := some "invalid", limit := some 20 }
      = ⟨⟨"Invalid search type", true⟩, []⟩ :=
  (search_validates_scope "invalid" "Test" 20 (by decide) (by decide) (by decide)
    (by decide)).1 okExec

/-- C7: round-trip between registry and dispatcher — the 28 advertised
tool names are pairwise distinct, every advertised name dispatches to a
non-default branch (its result is never the unknown-tool result, for any
executor and arguments), and every name outside the advertised list falls
through to the unknown-tool default. -/
theorem registry_dispatch_roundtrip :
    listToolNames.Nodup ∧ listToolNames.length = 28 ∧
    (∀ n ∈ listToolNames, ∀ (exec : Executor) (args : Args),
      (handleCallTool exec n args).result ≠ ⟨"Unknown tool: " ++ n, true⟩) ∧
    (∀ n : String, n ∉ listToolNames → ∀ (exec : Executor) (args : Args),
      handleCallTool exec n args = ⟨⟨"Unknown tool: " ++ n, true⟩, []⟩) := by
  refine ⟨by decide, by decide, ?_,
    fun n hn exec args => handleCallTool_not_listed n hn exec args⟩
  intro n hn exec args
  simp only [listToolNames, List.mem_cons, List.not_mem_nil, or_false] at hn
  rcases hn with rfl|rfl|rfl|rfl|rfl|rfl|rfl|rfl|rfl|rfl|rfl|rfl|rfl|rfl|rfl|rfl|rfl|rfl|
    rfl|rfl|rfl|rfl|rfl|rfl|rfl|rfl|rfl|rfl
  all_goals first
    | exact catchWrap_map_ne_unknown _ _ (fun _ => rfl) _
    | exact search_result_ne_unknown exec args _

/-- C7 witness: `music_play` is advertised and does not fall through;
`not_a_tool` is not advertised and does. -/
theorem registry_dispatch_roundtrip_witness :
    (handleCallTool okExec "music_play" {}).result
      ≠ ⟨"Unknown tool: " ++ "music_play", true⟩ ∧
    handleCallTool okExec "not_a_tool" {}
      = ⟨⟨"Unknown tool: " ++ "not_a_tool", true⟩, []⟩ :=
  ⟨registry_dispatch_roundtrip.2.2.1 "music_play" (by decide) okExec {},
   registry_dispatch_roundtrip.2.2.2 "not_a_tool" (by decide) okExec {}⟩

/-- C8: declared defaults are applied exactly when the argument is absent:
`music_get_playlist_tracks` defaults `limit` to 50,
`music_search_library` defaults `limit` to 20 and `searchType` to `all`
(the songs/all query shape), `music_play_playlist` defaults `shuffle` to
`false`, `music_play_artist` defaults `shuffle` to `true`; a supplied
value is used instead. -/
theorem declared_defaults (p q a : String) (l : Int) (b : Bool) :
    (∀ exec : Executor,
      (handleCallTool exec "music_get_playlist_tracks" { playlist := some p }).commands
        = [osascriptMultiCmd (playlistTracksScript (scriptEscape p) 50)]) ∧
    (∀ exec : Executor,
      (handleCallTool exec "music_get_playlist_tracks"
          { playlist := some p, limit := some l }).commands
        = [osascriptMultiCmd (playlistTracksScript (scriptEscape p) l)]) ∧
    (∀ exec : Executor,
      (handleCallTool exec "music_search_library" { query := some q }).commands
        = [osascriptMultiCmd (searchSongsScript (scriptEscape q) 20)]) ∧
    (∀ exec : Executor,
      (handleCallTool exec "music_search_library"
          { query := some q, searchType := some "albums", limit := some l }).commands
        = [osascriptMultiCmd (searchAlbumsScript (scriptEscape q) l)]) ∧
    (∀ exec : Executor,
      (handleCallTool exec "music_play_playlist" { playlist := some p }).commands
        = [osascriptMultiCmd (playPlaylistScript (scriptEscape p) false)]) ∧
    (∀ exec : Executor,
      (handleCallTool exec "music_play_playlist"
          { playlist := some p, shuffle := some b }).commands
        = [osascriptMultiCmd (playPlaylistScript (scriptEscape p) b)]) ∧
    (∀ exec : Executor,
      (handleCallTool exec "music_play_artist" { artist := some a }).commands
        = [osascriptMultiCmd (playArtistScript (scriptEscape a) true)]) ∧
    (∀ exec : Executor,
      (handleCallTool exec "music_play_artist"
          { artist := some a, shuffle := some b }).commands
        = [osascriptMultiCmd (playArtistScript (scriptEscape a) b)]) :=
  ⟨fun _ => rfl, fun _ => rfl, fun _ => rfl, fun _ => rfl, fun _ => rfl, fun _ => rfl,
   fun _ => rfl, fun _ => rfl⟩

/-- C9 counterexample: with a library holding no playlists the
get-playlists script computes the empty string, and the dispatcher returns
the bare header `Playlists:` plus a newline with an empty body — not an
explicit not-found or empty-library message. -/
theorem get_playlists_empty_library_counterexample :
    playlistsScriptOutput [] = "" ∧
    (handleCallTool emptyLibraryExec "music_get_playlists" {}).result
      = ⟨"Playlists:\n" ++ "", false⟩ ∧
    "Playlists:\n" ++ "" = "Playlists:\n" :=
  ⟨rfl, by decide, by decide⟩

/-- C9 (amended): the playlist-tracks script renders an existing empty
playlist as `Playlist is empty` and the three search shapes render an
empty match set as explicit `No ... found for:` messages, which the
dispatcher passes through; but `music_get_playlists` on an empty library
renders only the header `Playlists:` plus a newline with an empty body —
nonempty only by virtue of the header, with no explicit empty message. -/
theorem empty_results_explicit_messages (safeName q : String) (limit : Int) :
    playlistTracksScriptOutput (some []) safeName limit = "Playlist is empty" ∧
    songsSearchOutput q limit [] = "No results found for: " ++ q ∧
    albumsSearchOutput q limit [] = "No albums found for: " ++ q ∧
    artistsSearchOutput q limit [] = "No artists found for: " ++ q ∧
    playlistsScriptOutput [] = "" ∧
    (handleCallTool
        (fun _ => ExecOutcome.ok (playlistTracksScriptOutput (some []) (scriptEscape "Empty") 50))
        "music_get_playlist_tracks" { playlist := some "Empty" }).result
      = ⟨"Playlist is empty", false⟩ ∧
    (handleCallTool emptyLibraryExec "music_get_playlists" {}).result
      = ⟨"Playlists:\n" ++ playlistsScriptOutput [], false⟩ :=
  ⟨rfl, rfl, rfl, rfl, rfl, by decide, by decide⟩

/-- C10: for every mode string, the token `music_set_repeat` interpolates
into the external command is in the closed set `off / one / all`; any mode
other than `off` and `one` is mapped to `all` before interpolation, so an
out-of-vocabulary token is never forwarded, while the success message
echoes the original unvalidated mode. -/
theorem setRepeat_token_in_vocabulary (mode : String) (exec : Executor) :
    (repeatValue mode = "off" ∨ repeatValue mode = "one" ∨ repeatValue mode = "all") ∧
    (mode ≠ "off" → mode ≠ "one" → repeatValue mode = "all") ∧
    (handleCallTool exec "music_set_repeat" { mode := some mode }).commands
      = [osascriptSingle (setRepeatScript (repeatValue mode))] ∧
    (∀ out, exec (osascriptSingle (setRepeatScript (repeatValue mode))) = ExecOutcome.ok out →
      (handleCallTool exec "music_set_repeat" { mode := some mode }).result
        = ⟨"Repeat mode set to " ++ mode, false⟩) := by
  refine ⟨?_, ?_, rfl, ?_⟩
  · by_cases h1 : mode = "off"
    · exact Or.inl (by simp [repeatValue, h1])
    · by_cases h2 : mode = "one"
      · exact Or.inr (Or.inl (by simp [repeatValue, h1, h2]))
      · exact Or.inr (Or.inr (by simp [repeatValue, h1, h2]))
  · intro h1 h2
    simp [repeatValue, h1, h2]
  · intro out hout
    show catchWrap ((runAppleScript exec (setRepeatScript (repeatValue mode))).map
        (fun _ => (⟨"Repeat mode set to " ++ mode, false⟩ : ToolResult))) = _
    simp only [runAppleScript, hout, Except.map, catchWrap]

/-- C10 witness at the out-of-vocabulary mode `weird`. -/
theorem setRepeat_token_in_vocabulary_witness :
    repeatValue "weird" = "all" ∧
    (handleCallTool okExec "music_set_repeat" { mode := some "weird" }).result
      = ⟨"Repeat mode set to " ++ "weird", false⟩ := by
  have h := setRepeat_token_in_vocabulary "weird" okExec
  exact ⟨h.2.1 (by decide) (by decide), h.2.2.2 "" rfl⟩

end MusicMcp
